import Mathlib

/-!
Verification development for the HA-Seoul-Bike integration
(custom_components/seoul_bike).  Python functions are shallowly embedded
over `List Char` strings, `Int`/`Rat` numbers and explicit `Option`/`Except`
results; each definition mirrors one Python function of the repository and
is named after it.
-/

set_option maxRecDepth 4000

namespace SeoulBike

abbrev LChar := List Char

/-- Characters stripped by Python `str.strip()` (ASCII whitespace, the only
whitespace occurring in the modelled inputs). -/
def isPySpace (c : Char) : Bool :=
  c = ' ' || c = '\t' || c = '\n' || c = '\r' || c = Char.ofNat 11 || c = Char.ofNat 12

/-- The double-quote character. -/
def dq : Char := Char.ofNat 34

/-- The apostrophe (single-quote) character. -/
def sq : Char := Char.ofNat 39

/-- Python `s.strip()`: drop leading and trailing whitespace. -/
def pyStrip (s : LChar) : LChar :=
  ((s.dropWhile isPySpace).reverse.dropWhile isPySpace).reverse

/-- Python `s.strip(c)` for a single character `c`. -/
def pyStripChar (c : Char) (s : LChar) : LChar :=
  ((s.dropWhile (fun x => x = c)).reverse.dropWhile (fun x => x = c)).reverse

/-- Python `s.strip(cs)` for a set of characters `cs`. -/
def pyStripSet (cs : LChar) (s : LChar) : LChar :=
  ((s.dropWhile (fun x => cs.contains x)).reverse.dropWhile (fun x => cs.contains x)).reverse

/-- Python `s.lower()` (ASCII model). -/
def pyLower (s : LChar) : LChar := s.map Char.toLower

/-- Python `s.upper()` (ASCII model). -/
def pyUpper (s : LChar) : LChar := s.map Char.toUpper

/-- Python `s.replace(a, b)` for single characters. -/
def pyReplaceChar (a b : Char) (s : LChar) : LChar :=
  s.map (fun c => if c = a then b else c)

/-- Python `s.split(sep)` for a one-character separator: keeps empty parts. -/
def splitOnChar (c : Char) : LChar → List LChar
  | [] => [[]]
  | x :: xs =>
    let r := splitOnChar c xs
    if x = c then [] :: r
    else
      match r with
      | [] => [[x]]
      | h :: t => (x :: h) :: t

/-- Helper for `pySplitWS`, accumulating the current token in reverse. -/
def pySplitWSAux : LChar → LChar → List LChar
  | acc, [] => if acc.isEmpty then [] else [acc.reverse]
  | acc, c :: cs =>
    if isPySpace c then
      if acc.isEmpty then pySplitWSAux [] cs else acc.reverse :: pySplitWSAux [] cs
    else pySplitWSAux (c :: acc) cs

/-- Python `s.split()` with no argument: split on whitespace runs, no empty parts. -/
def pySplitWS (s : LChar) : List LChar := pySplitWSAux [] s

/-- Python `sep.join(parts)`. -/
def pyJoin (sep : LChar) : List LChar → LChar
  | [] => []
  | [p] => p
  | p :: ps => p ++ sep ++ pyJoin sep ps

/-- Python `s.startswith(p)` as `p.isPrefixOf s`. -/
def pyStartsWith (s p : LChar) : Bool := p.isPrefixOf s

/-- Substring test: `p in s` in Python. -/
def containsSub (s p : LChar) : Bool :=
  (List.range (s.length + 1)).any (fun i => p.isPrefixOf (s.drop i))

/--
Embedding of `_normalize_cookie` (custom_components/seoul_bike/api.py and
modes/cookie/api.py, identical bodies): strip whitespace and surrounding
quotes, extract the cookie line from a multi-line paste, collapse internal
whitespace, and drop a leading "cookie "/"cookie:" prefix.
-/
def normalizeCookie (raw : LChar) : LChar :=
  let v0 := pyStripChar sq (pyStripChar dq (pyStrip raw))
  let v1 :=
    if v0.isEmpty then v0
    else
      let v2 :=
        if v0.contains '\n' || v0.contains '\r' then
          let parts :=
            (((splitOnChar '\n' (pyReplaceChar '\r' '\n' v0)).map pyStrip).filter
              (fun p => !p.isEmpty))
          let cookieLine :=
            match parts.find? (fun p => pyStartsWith (pyLower p) ("cookie:".toList)) with
            | some l => some l
            | none => parts.find? (fun p => pyStartsWith (pyLower p) ("cookie ".toList))
          match cookieLine with
          | some l => l
          | none => pyJoin [' '] parts
        else v0
      pyJoin [' '] (pySplitWS (pyReplaceChar '\n' ' ' (pyReplaceChar '\r' ' ' v2)))
  let v3 := if pyStartsWith (pyLower v1) ("cookie ".toList) then pyStrip (v1.drop 7) else v1
  if pyStartsWith (pyLower v3) ("cookie:".toList) then pyStrip (v3.drop 7) else v3

/-- Concrete input on which `_normalize_cookie` is not idempotent. -/
def cookieCexInput : LChar := "cookie cookie x".toList

/-- Digits of a decimal string to a natural number, `none` unless the string
is non-empty and all digits. -/
def digitsToNat : LChar → Option Nat
  | [] => none
  | s =>
    if s.all Char.isDigit then
      some (s.foldl (fun n c => n * 10 + (c.toNat - 48)) 0)
    else none

/-- Python `int(str)` on an already-stripped string: optional sign followed by
digits, failing otherwise. -/
def parsePyInt (s : LChar) : Option Int :=
  match s with
  | [] => none
  | c :: rest =>
    if c = '-' then (digitsToNat rest).map (fun n => -(n : Int))
    else if c = '+' then (digitsToNat rest).map (fun n => (n : Int))
    else (digitsToNat s).map (fun n => (n : Int))

/--
Embedding of `_to_int` (coordinator.py): `int(str(text).strip())` with a
default on failure; an absent value (`None`) stringifies to a non-numeric
token and hence yields the default.
-/
def toIntD (v : Option LChar) (d : Int) : Int :=
  match v with
  | none => d
  | some s => (parsePyInt (pyStrip s)).getD d

/-- Match of the regex `\d+(?:\.\d+)?` at the start of `s`, used by `_to_float`. -/
def matchUnsignedFloat (s : LChar) : Option LChar :=
  let ds := s.takeWhile Char.isDigit
  if ds.isEmpty then none
  else
    match s.drop ds.length with
    | '.' :: r2 =>
      let fs := r2.takeWhile Char.isDigit
      if fs.isEmpty then some ds else some (ds ++ '.' :: fs)
    | _ => some ds

/-- Match of the regex `[-+]?\d+(?:\.\d+)?` anchored at the start of `s`. -/
def matchFloatAt (s : LChar) : Option LChar :=
  match s with
  | [] => none
  | c :: rest =>
    if c = '-' || c = '+' then (matchUnsignedFloat rest).map (fun m => c :: m)
    else matchUnsignedFloat s

/-- Leftmost match of `[-+]?\d+(?:\.\d+)?` anywhere in `s` (`re.search`). -/
def searchFloat : LChar → Option LChar
  | [] => none
  | c :: cs =>
    match matchFloatAt (c :: cs) with
    | some m => some m
    | none => searchFloat cs

/-- Numeric value of a matched decimal literal, as an exact rational
(built with `mkRat` so the definition stays kernel-evaluable). -/
def decimalToRat (s : LChar) : ℚ :=
  match s with
  | '-' :: r => Rat.neg (decimalToRat r)
  | '+' :: r => decimalToRat r
  | s =>
    let ip := s.takeWhile Char.isDigit
    let fp := (s.drop (ip.length + 1)).takeWhile Char.isDigit
    mkRat (((digitsToNat ip).getD 0 : ℤ) * (10 ^ fp.length : ℕ) +
      ((digitsToNat fp).getD 0 : ℤ)) (10 ^ fp.length)

/--
Embedding of `_to_float` (coordinator.py): first decimal literal found in the
text, or `none`.  Exact rationals stand in for Python floats; none of the
verified claims depends on binary rounding.
-/
def toFloatOpt (v : Option LChar) : Option ℚ :=
  (searchFloat (v.getD [])).map decimalToRat

/-- Python truthiness of an optional string (`None` and `""` are falsy). -/
def truthyStr (v : Option LChar) : Bool :=
  match v with
  | none => false
  | some s => !s.isEmpty

/-- Python `a or b or ...` over optional strings: first truthy value. -/
def firstTruthy (vs : List (Option LChar)) : Option LChar :=
  match vs.find? truthyStr with
  | some v => v
  | none => none

/-- Station record (`@dataclass Station`, coordinator.py). -/
structure Station where
  station_id : LChar
  station_no : LChar
  station_title : LChar
  lat : ℚ
  lon : ℚ
  bikes_total : Int
  bikes_general : Int
  bikes_sprout : Int
  bikes_repair : Int
  deriving DecidableEq, Repr

/--
Realtime-status payload as consumed by `_station_from_status`: the dict keys
the function reads, each an optional string value (`dict.get` yields `None`
for an absent key).
-/
structure StatusPayload where
  stationId : Option LChar := none
  stationName : Option LChar := none
  stationNo : Option LChar := none
  stationLatitude : Option LChar := none
  stationLongitude : Option LChar := none
  parkingBikeTotCnt : Option LChar := none
  parkingBikeTotCntGeneral : Option LChar := none
  parkingBikeTotCntTeen : Option LChar := none
  parkingQRBikeCnt : Option LChar := none
  parkingELECBikeCnt : Option LChar := none
  parkingBikeTotCntRepair : Option LChar := none
  bikesTotalKey : Option LChar := none
  bikesGeneralKey : Option LChar := none
  bikesSproutKey : Option LChar := none
  bikesRepairKey : Option LChar := none
  deriving DecidableEq, Repr

/--
Match of `_STATION_NO_RE` = `^\s*(\d+)\s*(?:[.)-]|\s)` against the start of a
display name: returns the digit group and the match end position.
-/
def matchStationNo (s : LChar) : Option (LChar × Nat) :=
  let ws := s.takeWhile isPySpace
  let rest := s.drop ws.length
  let ds := rest.takeWhile Char.isDigit
  if ds.isEmpty then none
  else
    let rest2 := rest.drop ds.length
    let ws2 := rest2.takeWhile isPySpace
    let rest3 := rest2.drop ws2.length
    match rest3 with
    | c :: _ =>
      if c = '.' || c = ')' || c = '-' then some (ds, ws.length + ds.length + ws2.length + 1)
      else if ws2.length ≥ 1 then some (ds, ws.length + ds.length + ws2.length)
      else none
    | [] =>
      if ws2.length ≥ 1 then some (ds, ws.length + ds.length + ws2.length) else none

/-- General count after the primary-key fallback and QR folding
(`_station_from_status`, coordinator.py lines 643-651). -/
def derivedGeneral (st : StatusPayload) : Int :=
  let g0 := toIntD st.parkingBikeTotCntGeneral 0
  let qr := toIntD st.parkingQRBikeCnt 0
  let g1 := if g0 ≤ 0 then toIntD st.parkingBikeTotCnt 0 else g0
  if qr > 0 then g1 + qr else g1

/-- Sprout count after the electric-bike fallback
(`_station_from_status`, coordinator.py lines 644-654). -/
def derivedSprout (st : StatusPayload) : Int :=
  let s0 := toIntD st.parkingBikeTotCntTeen 0
  let el := toIntD st.parkingELECBikeCnt 0
  if s0 ≤ 0 && el > 0 then el else s0

/--
Embedding of `_station_from_status` (coordinator.py lines 618-677, the main
cookie-mode coordinator variant).  The `bikes_*Key` fields model the
lowercase `bikes_total`/`bikes_general`/... dict keys read as fallbacks.
-/
def stationFromStatus (st : StatusPayload) (fbId fbNo fbName : Option LChar) :
    Option Station :=
  let sid := pyStrip ((firstTruthy [st.stationId, fbId, fbNo]).getD [])
  if sid.isEmpty then none
  else
    let rawName := pyStrip ((firstTruthy [st.stationName, fbName]).getD [])
    let stationNo0 := pyStrip ((firstTruthy [st.stationNo, fbNo]).getD [])
    let noTitle :=
      if rawName.isEmpty then (stationNo0, rawName)
      else
        match matchStationNo rawName with
        | some (ds, e) =>
          ((if stationNo0.isEmpty then ds else stationNo0),
            pyStripSet [' ', '.', '-'] (rawName.drop e))
        | none => (stationNo0, rawName)
    let lat := (toFloatOpt st.stationLatitude).getD 0
    let lon := (toFloatOpt st.stationLongitude).getD 0
    let t0 := toIntD st.parkingBikeTotCnt 0
    let r0 := toIntD st.parkingBikeTotCntRepair 0
    let g2 := derivedGeneral st
    let s1 := derivedSprout st
    let t1 := if t0 ≤ 0 then toIntD st.bikesTotalKey 0 else t0
    let t2 := if t1 ≤ 0 then max 0 (g2 + s1) else t1
    let g3 := if g2 ≤ 0 then toIntD st.bikesGeneralKey t2 else g2
    let s2 := if s1 ≤ 0 then toIntD st.bikesSproutKey 0 else s1
    let r1 := if r0 ≤ 0 then toIntD st.bikesRepairKey 0 else r0
    some
      { station_id := sid
        station_no := noTitle.1
        station_title :=
          if noTitle.2.isEmpty then (if rawName.isEmpty then sid else rawName)
          else noTitle.2
        lat := lat
        lon := lon
        bikes_total := t2
        bikes_general := g3
        bikes_sprout := s2
        bikes_repair := r1 }

/-- Status payload refuting the `bikes_total = general + sprout` invariant:
only a sprout (teen) count is reported. -/
def stationCexStatus : StatusPayload :=
  { stationId := some ("ST-1".toList), parkingBikeTotCntTeen := some ("4".toList) }

/-- History entry: the trip dict produced by `_extract_payment_history`,
modelled as a string-keyed association list. -/
abbrev HistEntry := List (LChar × LChar)

/-- Payload shape produced by `_parse_use_history` and merged by
`_merge_latest_history` (period fields are `None` or strings, `kcal` a dict,
`history` a list, `last` a dict). -/
structure HistPayload where
  period_start : Option LChar
  period_end : Option LChar
  kcal : List (LChar × LChar)
  history : List HistEntry
  last : HistEntry
  deriving DecidableEq, Repr

/--
Embedding of `_merge_latest_history` (coordinator.py lines 475-496): keep
only the latest entry and preserve previous values if new data is empty.
-/
def mergeLatestHistory (payload prev : HistPayload) : HistPayload :=
  let p1 :=
    match payload.history with
    | h :: _ => { payload with history := [h], last := h }
    | [] =>
      match prev.history with
      | h :: _ => { payload with history := [h], last := h }
      | [] =>
        { payload with
          history := ([] : List HistEntry),
          last := if prev.last.isEmpty then [] else prev.last }
  let p2 := if p1.kcal.isEmpty && !prev.kcal.isEmpty then { p1 with kcal := prev.kcal } else p1
  let p3 :=
    if !(truthyStr p2.period_start) && truthyStr prev.period_start then
      { p2 with period_start := prev.period_start }
    else p2
  if !(truthyStr p3.period_end) && truthyStr prev.period_end then
    { p3 with period_end := prev.period_end }
  else p3

/-- Current-cycle payload with empty history but a non-empty kcal box. -/
def mergeCexPayload : HistPayload :=
  { period_start := none, period_end := none,
    kcal := [("kcal".toList, "7".toList)], history := [], last := [] }

/-- Previous snapshot with non-empty history, kcal and period bounds. -/
def mergeCexPrev : HistPayload :=
  { period_start := some ("2025-01-01".toList), period_end := some ("2025-02-01".toList),
    kcal := [("kcal".toList, "99".toList)],
    history := [[("bike".toList, "SPB-1".toList)]],
    last := [("bike".toList, "SPB-1".toList)] }

/-- Floor of a rational, computed on the normalised numerator/denominator. -/
def ratFloor (q : ℚ) : ℤ := Int.fdiv q.num (q.den : Int)

/-- Round to the nearest integer, ties to even (Python `round` tie rule).
The fractional part `q - floor q` equals `(q.num - floor q * q.den) / q.den`,
so the half comparisons are done on integers to stay kernel-evaluable. -/
def roundHalfEven (q : ℚ) : ℤ :=
  let f := ratFloor q
  let rnum := q.num - f * (q.den : ℤ)
  if 2 * rnum < (q.den : ℤ) then f
  else if (q.den : ℤ) < 2 * rnum then f + 1
  else if f % 2 = 0 then f else f + 1

/-- Python `round(q, 1)`: round `10 * q` half-to-even, divide by 10. -/
def roundTo1 (q : ℚ) : ℚ := mkRat (roundHalfEven (mkRat (q.num * 10) q.den)) 10

/-- Candidate dict appended by `_compute_nearby` for a qualifying station. -/
structure NearbyCandidate where
  station_id : LChar
  station_no : LChar
  station_name : LChar
  bikes_total : Int
  distance_m : ℚ
  deriving DecidableEq, Repr

/-- Sort order used by `_compute_nearby`:
`key=lambda x: (-x["bikes_total"], x["distance_m"])` — most bikes first,
nearer as tiebreak. -/
def nearbyKeyRel (a b : NearbyCandidate) : Prop :=
  b.bikes_total < a.bikes_total ∨
    (a.bikes_total = b.bikes_total ∧ a.distance_m ≤ b.distance_m)

instance : DecidableRel nearbyKeyRel := fun a b =>
  inferInstanceAs
    (Decidable (b.bikes_total < a.bikes_total ∨
      (a.bikes_total = b.bikes_total ∧ a.distance_m ≤ b.distance_m)))

instance : IsTotal NearbyCandidate nearbyKeyRel where
  total a b := by
    rcases lt_trichotomy a.bikes_total b.bikes_total with h | h | h
    · exact Or.inr (Or.inl h)
    · rcases le_total a.distance_m b.distance_m with hd | hd
      · exact Or.inl (Or.inr ⟨h, hd⟩)
      · exact Or.inr (Or.inr ⟨h.symm, hd⟩)
    · exact Or.inl (Or.inl h)

instance : IsTrans NearbyCandidate nearbyKeyRel where
  trans a b c hab hbc := by
    rcases hab with h1 | ⟨e1, d1⟩
    · rcases hbc with h2 | ⟨e2, _⟩
      · exact Or.inl (h2.trans h1)
      · exact Or.inl (e2 ▸ h1)
    · rcases hbc with h2 | ⟨e2, d2⟩
      · exact Or.inl (e1 ▸ h2)
      · exact Or.inr ⟨e1.trans e2, d1.trans d2⟩

/-- Effective search radius: `max(1, int(self.radius_m or DEFAULT_RADIUS_M))`
with `DEFAULT_RADIUS_M = 500`. -/
def effRadius (radiusCfg : Int) : Int := max 1 (if radiusCfg = 0 then 500 else radiusCfg)

/-- Effective minimum bike count: `max(0, int(self.min_bikes or 0))`. -/
def effMinBikes (minBikesCfg : Int) : Int := max 0 minBikesCfg

/-- Filter applied by `_compute_nearby`: known coordinates, within radius,
at least the minimum bike count. -/
def qualifiesB (dist : Station → ℚ) (radius minB : Int) (s : Station) : Bool :=
  decide (s.lat ≠ 0) && decide (s.lon ≠ 0) &&
    decide (dist s ≤ (radius : ℚ)) && decide (minB ≤ s.bikes_total)

/-- Candidate dict built by `_compute_nearby` for station `s`. -/
def mkCandidate (dist : Station → ℚ) (s : Station) : NearbyCandidate :=
  { station_id := s.station_id
    station_no := s.station_no
    station_name :=
      if s.station_no.isEmpty then s.station_title
      else pyStrip (s.station_no ++ ". ".toList ++ s.station_title)
    bikes_total := s.bikes_total
    distance_m := roundTo1 (dist s) }

/-- Result triple published by `_compute_nearby`. -/
structure NearbyResult where
  nearby : List NearbyCandidate
  totalBikes : Int
  recommendedBikes : Int
  deriving DecidableEq, Repr

/--
Embedding of `_compute_nearby` (coordinator.py lines 679-723).  The
haversine great-circle distance (transcendental float arithmetic) enters
only through the `dist` parameter; `stations` is `self.stations_by_id.values()`
in iteration order.  Python's stable `list.sort` over the total preorder
`nearbyKeyRel` is embedded as the (equally stable) insertion sort.
-/
def computeNearby (dist : Station → ℚ) (radiusCfg minBikesCfg maxResCfg : Int)
    (stations : List Station) : NearbyResult :=
  let radius := effRadius radiusCfg
  let minB := effMinBikes minBikesCfg
  let filtered := stations.filter (qualifiesB dist radius minB)
  let cands := filtered.map (mkCandidate dist)
  let sorted := List.insertionSort nearbyKeyRel cands
  let nearby := if 0 < maxResCfg then sorted.take maxResCfg.toNat else sorted
  { nearby := nearby
    totalBikes := (filtered.map (fun s => s.bikes_total)).sum
    recommendedBikes := (nearby.map (fun c => c.bikes_total)).sum }

/-- Example stations A, B, C of the spec's ranking scenario. -/
def exStationA : Station :=
  { station_id := "A".toList, station_no := [], station_title := "A".toList,
    lat := 1, lon := 1, bikes_total := 5, bikes_general := 5, bikes_sprout := 0,
    bikes_repair := 0 }

def exStationB : Station :=
  { exStationA with station_id := "B".toList, station_title := "B".toList }

def exStationC : Station :=
  { exStationA with
    station_id := "C".toList, station_title := "C".toList,
    bikes_total := 8, bikes_general := 8 }

def exStations : List Station := [exStationA, exStationB, exStationC]

/-- Example distances: A at 100 m, B at 50 m, C at 200 m. -/
def exDist (s : Station) : ℚ :=
  if s.station_id = "A".toList then 100
  else if s.station_id = "B".toList then 50
  else 200

/-- One page of the open-data `bikeList` response
(`{ row: [...], list_total_count }`); `fetch_all` never reads the total. -/
structure PageResult (α : Type) where
  row : List α
  listTotalCount : Int := 0

/--
Paging loop of `SeoulBikeApi.fetch_all` (modes/api/api.py lines 155-179):
`fuel` is the remaining page budget, `idx` the 0-based page ordinal (the
request for ordinal `i` covers rows `1 + i*page_size .. (i+1)*page_size`).
Returns the accumulated rows and the number of pages requested, or the
propagated page error.
-/
def fetchAllGo {α : Type} (pages : Nat → Except LChar (PageResult α)) (ps : Nat) :
    Nat → Nat → Except LChar (List α × Nat)
  | 0, _ => Except.ok ([], 0)
  | fuel + 1, idx =>
    match pages idx with
    | Except.error e => Except.error e
    | Except.ok pr =>
      if pr.row.length < ps then Except.ok (pr.row, 1)
      else
        match fetchAllGo pages ps fuel (idx + 1) with
        | Except.error e => Except.error e
        | Except.ok (rest, n) => Except.ok (pr.row ++ rest, n + 1)

/--
Embedding of `SeoulBikeApi.fetch_all` (modes/api/api.py lines 134-189):
clamps `page_size` to 1000 and `max_pages` to at least 1, then pages until a
short page or the page budget is exhausted.  `pages` abstracts
`_fetch_page_with_retry` (the post-retry outcome per page ordinal).
-/
def fetchAll {α : Type} (pages : Nat → Except LChar (PageResult α))
    (pageSize maxPages : Nat) : Except LChar (List α × Nat) :=
  fetchAllGo pages (min pageSize 1000) (max 1 maxPages) 0

/-- Primary rent-status endpoint path. -/
def rentStatusPathA : LChar := "/app/rentCheck/isChkRentStatus.do".toList

/-- Alternate (historical) rent-status endpoint path. -/
def rentStatusPathB : LChar := "/app/rent/isChkRentStatus.do".toList

/--
Embedding of `fetch_rent_status` (api.py lines 323-332 and
modes/cookie/api.py lines 484-493): try the two known paths in order,
return the first success, re-raise the last error if both fail.  `res`
abstracts `_get_json` on each path.
-/
def fetchRentStatus {E J : Type} (res : LChar → Except E J) : Except E J :=
  match res rentStatusPathA with
  | Except.ok v => Except.ok v
  | Except.error _ =>
    match res rentStatusPathB with
    | Except.ok v => Except.ok v
    | Except.error e => Except.error e

/-- Helper: does `p` hold of some suffix obtained after dropping at least one
leading character that is not `>`?  This is the `[^>]+` gap of the
`<input`/`<form` regexes. -/
def scanNoGt (p : LChar → Bool) : LChar → Bool
  | [] => false
  | c :: rest => if c = '>' then false else (p rest || scanNoGt p rest)

/-- Helper: does `p` hold of some suffix of `s` (including `s` itself)? -/
def anyTail (p : LChar → Bool) : LChar → Bool
  | [] => p []
  | c :: cs => p (c :: cs) || anyTail p cs

/-- Match of `type=["']password["']` at the start of `s` (already lowercased). -/
def typePasswordAt (s : LChar) : Bool :=
  if ("type=".toList).isPrefixOf s then
    match s.drop 5 with
    | q :: s2 =>
      (q = dq || q = sq) && (("password".toList ++ [q]).isPrefixOf s2)
    | [] => false
  else false

/-- Match of `_PASSWORD_INPUT_RE` = `<input[^>]+type=["']password["']`
anywhere in the lowercased document. -/
def hasPasswordInput (low : LChar) : Bool :=
  anyTail
    (fun t => ("<input".toList).isPrefixOf t && scanNoGt typePasswordAt (t.drop 6)) low

/-- Match of `action=["'][^"']*(j_spring_security_check|login)[^"']*["']` at
the start of `s` (already lowercased). -/
def formActionAt (s : LChar) : Bool :=
  if ("action=".toList).isPrefixOf s then
    match s.drop 7 with
    | q :: s2 =>
      if q = dq || q = sq then
        let seg := s2.takeWhile (fun c => !(c = dq || c = sq))
        (containsSub seg ("j_spring_security_check".toList) ||
            containsSub seg ("login".toList)) &&
          !(s2.drop seg.length).isEmpty
      else false
    | [] => false
  else false

/-- Match of `_LOGIN_FORM_RE` =
`<form[^>]+action=["'][^"']*(j_spring_security_check|login)[^"']*["']`. -/
def hasLoginForm (low : LChar) : Bool :=
  anyTail (fun t => ("<form".toList).isPrefixOf t && scanNoGt formActionAt (t.drop 5)) low

/-- Match of the `moveRentalStation\(\s*'ST-[^']+'\s*,\s*'[^']+'\s*\)`
alternative of `_DATA_MARKER_RE` at the start of `s` (lowercased). -/
def moveRentalAt (s : LChar) : Bool :=
  if ("moverentalstation(".toList).isPrefixOf s then
    let s1 := (s.drop 18).dropWhile isPySpace
    match s1 with
    | q1 :: s2 =>
      if q1 = sq ∧ ("st-".toList).isPrefixOf s2 then
        let seg1 := (s2.drop 3).takeWhile (fun c => c ≠ sq)
        let s3 := (s2.drop 3).drop seg1.length
        if seg1.isEmpty then false
        else
          match s3 with
          | _ :: s4 =>
            let s5 := s4.dropWhile isPySpace
            match s5 with
            | ',' :: s6 =>
              let s7 := s6.dropWhile isPySpace
              match s7 with
              | q2 :: s8 =>
                if q2 = sq then
                  let seg2 := s8.takeWhile (fun c => c ≠ sq)
                  if seg2.isEmpty then false
                  else
                    match (s8.drop seg2.length) with
                    | _ :: s9 =>
                      match s9.dropWhile isPySpace with
                      | ')' :: _ => true
                      | _ => false
                    | [] => false
                else false
              | [] => false
            | _ => false
          | [] => false
      else false
    | [] => false
  else false

/-- Match of `_DATA_MARKER_RE` =
`(kcal_box|payment_box|moveRentalStation\(\s*'ST-[^']+'\s*,\s*'[^']+'\s*\))`
(IGNORECASE) over the lowercased document. -/
def hasDataMarker (low : LChar) : Bool :=
  containsSub low ("kcal_box".toList) || containsSub low ("payment_box".toList) ||
    anyTail moveRentalAt low

/-- Match of `_LOGOUT_MARKER_RE` = `(logout|/logout|logout\.do)` (IGNORECASE):
every alternative contains the first, so this is a `logout` substring test. -/
def hasLogoutMarker (low : LChar) : Bool := containsSub low ("logout".toList)

/--
Embedding of `_looks_like_login` (coordinator.py lines 243-254): empty pages
count as login pages; data or logout markers take precedence; otherwise a
password input together with `j_spring_security_check` or a login-form
action classifies the page as a login page.
-/
def looksLikeLogin (html : LChar) : Bool :=
  if html.isEmpty then true
  else
    let low := pyLower html
    if hasDataMarker low then false
    else if hasLogoutMarker low then false
    else
      (containsSub low ("j_spring_security_check".toList) && hasPasswordInput low) ||
        (hasLoginForm low && hasPasswordInput low)

/-- Login-page HTML: a password input plus a `j_spring_security_check` form
action, and no data or logout markers. -/
def exLoginHtml : LChar :=
  ("<form action=".toList) ++ [dq] ++ ("/j_spring_security_check".toList) ++ [dq] ++
    ("><input name=".toList) ++ [dq] ++ ("pw".toList) ++ [dq] ++ (" type=".toList) ++
    [dq] ++ ("password".toList) ++ [dq] ++ (">".toList)

/-- The same HTML with an authenticated-content marker appended. -/
def exLoginHtmlWithMarker : LChar :=
  exLoginHtml ++ ("moveRentalStation(".toList) ++ [sq] ++ ("ST-101".toList) ++
    [sq, ','] ++ [sq] ++ ("Hall".toList) ++ [sq, ')']

/-- MyPage account values (each `None` or an ISO timestamp string). -/
structure MyPageVals where
  voucherEnd : Option LChar := none
  regDttm : Option LChar := none
  lastLoginDttm : Option LChar := none
  deriving DecidableEq, Repr

/-- Python falsiness of an optional string value of the my_page dict. -/
def falsyV (v : Option LChar) : Bool := !truthyStr v

/-- Output of the my_page assembly: the published values, the optional
`error` slot and the `ticket_expiry` value. -/
structure MyPageOut where
  vals : MyPageVals
  errorSlot : Option LChar
  ticketExpiry : Option LChar
  deriving DecidableEq, Repr

/-- Condition under which the voucher-info API is called
(coordinator.py lines 1204-1208). -/
def needVoucherApi (prev : MyPageVals) (realtimeVoucherEnd : Option LChar) : Bool :=
  falsyV realtimeVoucherEnd || falsyV prev.regDttm || falsyV prev.lastLoginDttm

/--
Embedding of the my_page assembly of `_async_update_data` (coordinator.py
lines 1201-1238).  `realtimeVoucherEnd` abstracts
`_extract_voucher_end_from_realtime(realtime_list)`, `voucherFetch` the
`fetch_voucher_info` call composed with `_extract_voucher_info` (an
exception yields the `{"error": ...}` payload, whose extraction is all-`None`),
and `leftExpiry` the left-page fetch composed with the login check and
`_parse_ticket_expiry` (only consulted when every earlier source was empty).
-/
def buildMyPage (prev : MyPageVals) (realtimeVoucherEnd : Option LChar)
    (voucherFetch : Except LChar MyPageVals) (leftExpiry : Option LChar) : MyPageOut :=
  let needApi := needVoucherApi prev realtimeVoucherEnd
  let fetched :=
    if needApi then
      match voucherFetch with
      | Except.ok vals => (vals, (none : Option LChar))
      | Except.error e =>
        (({ voucherEnd := none, regDttm := none, lastLoginDttm := none } : MyPageVals),
          some e)
    else
      (({ voucherEnd := none, regDttm := prev.regDttm,
          lastLoginDttm := prev.lastLoginDttm } : MyPageVals), none)
  let v1 :=
    if !falsyV realtimeVoucherEnd then { fetched.1 with voucherEnd := realtimeVoucherEnd }
    else fetched.1
  let v2 :=
    if falsyV v1.regDttm && !falsyV prev.regDttm then { v1 with regDttm := prev.regDttm }
    else v1
  let v3 :=
    if falsyV v2.lastLoginDttm && !falsyV prev.lastLoginDttm then
      { v2 with lastLoginDttm := prev.lastLoginDttm }
    else v2
  let ticket := if falsyV v3.voucherEnd then leftExpiry else v3.voucherEnd
  { vals := { v3 with voucherEnd := ticket }
    errorSlot := fetched.2
    ticketExpiry := ticket }

/-- Registration value the voucher API reported this cycle (`None` when the
fetch raised). -/
def apiReg (voucherFetch : Except LChar MyPageVals) : Option LChar :=
  match voucherFetch with
  | Except.ok v => v.regDttm
  | Except.error _ => none

/-- Last-login value the voucher API reported this cycle. -/
def apiLastLogin (voucherFetch : Except LChar MyPageVals) : Option LChar :=
  match voucherFetch with
  | Except.ok v => v.lastLoginDttm
  | Except.error _ => none

/-- Voucher-end value the voucher API reported this cycle. -/
def apiVoucherEnd (voucherFetch : Except LChar MyPageVals) : Option LChar :=
  match voucherFetch with
  | Except.ok v => v.voucherEnd
  | Except.error _ => none

/-- Previous snapshot with all three my_page values present. -/
def myPageCexPrev : MyPageVals :=
  { voucherEnd := some ("2025-03-01T00:00:00+00:00".toList),
    regDttm := some ("2020-01-01T00:00:00+00:00".toList),
    lastLoginDttm := some ("2025-02-01T00:00:00+00:00".toList) }

/-- Rent-status JSON fields read by `_status_login_ok` (an error dict holds
only `errorMsg`; the all-`none` record models the empty dict). -/
structure RentDict where
  loginYn : Option LChar := none
  memberYn : Option LChar := none
  errorMsg : Option LChar := none
  deriving DecidableEq, Repr

/--
Embedding of `_status_login_ok` (coordinator.py lines 228-239): tri-state
login determination from `loginYn`/`memberYn`.
-/
def statusLoginOk (s : RentDict) : Option Bool :=
  if s = ({} : RentDict) then none
  else
    let login := pyUpper (pyStrip (s.loginYn.getD []))
    if login.isEmpty then none
    else if login ≠ ("Y".toList) then some false
    else
      let member := pyUpper (pyStrip (s.memberYn.getD []))
      if !member.isEmpty && member ≠ ("Y".toList) then some false else some true

/-- Environment of one scheduled poll cycle: the outcome each awaited call
would produce, in program order. -/
structure CycleEnv where
  rentFetch : Except LChar RentDict
  username : LChar
  password : LChar
  loginCall : Except LChar LChar
  rentFetchAfterLogin : Except LChar RentDict
  userStatusFetch : Except LChar Unit
  reconsentFetch : Except LChar Unit
  historyFetch : Except LChar LChar

/-- Rent status as held after the first fetch (an exception leaves the
`{"error": str(err)}` dict). -/
def rentAfterFirst (env : CycleEnv) : RentDict :=
  match env.rentFetch with
  | Except.ok d => d
  | Except.error e => { errorMsg := some e }

/-- Tri-state login flag after the first fetch (`None` when it raised). -/
def loginOkFirst (env : CycleEnv) : Option Bool :=
  match env.rentFetch with
  | Except.ok d => statusLoginOk d
  | Except.error _ => none

/-- Are stored username+password credentials usable
(both non-empty after stripping)? -/
def hasCreds (env : CycleEnv) : Bool :=
  !(pyStrip env.username).isEmpty && !(pyStrip env.password).isEmpty

/-- Rent status and login flag after the conditional re-login attempt
(coordinator.py lines 1085-1096); any exception inside the re-login `try`
leaves both unchanged. -/
def afterRelogin (env : CycleEnv) : RentDict × Option Bool :=
  let rs0 := rentAfterFirst env
  let lo0 := loginOkFirst env
  if lo0 = some false && hasCreds env then
    match env.loginCall with
    | Except.error _ => (rs0, lo0)
    | Except.ok _ =>
      match env.rentFetchAfterLogin with
      | Except.error _ => (rs0, lo0)
      | Except.ok d2 => (d2, statusLoginOk d2)
  else (rs0, lo0)

/-- Degraded snapshot shape published on a `login_page` short-circuit. -/
structure Snapshot where
  errorMsg : Option LChar
  periods : List (LChar × HistPayload)
  myPage : MyPageVals
  favorites : List (LChar × LChar)
  favoriteStatus : List (LChar × LChar)
  rentStatus : RentDict
  userStatus : Except LChar Unit
  reconsentStatus : Except LChar Unit
  validationStatus : LChar
  ticketExpiry : Option LChar

/-- The degraded snapshot literal returned at coordinator.py lines 1102-1119
and 1138-1155. -/
def degradedSnapshot (rs : RentDict) (us rc : Except LChar Unit) : Snapshot :=
  { errorMsg := some ("로그인 페이지로 응답됨(쿠키 만료/권한/세션 제한 가능)".toList)
    periods := []
    myPage := {}
    favorites := []
    favoriteStatus := []
    rentStatus := rs
    userStatus := us
    reconsentStatus := rc
    validationStatus := "login_page".toList
    ticketExpiry := none }

/-- Outcome of the session/classification phase: a published degraded
snapshot, or the data gathered so far for the rest of the cycle. -/
inductive CycleOutcome where
  | degraded (snap : Snapshot)
  | proceed (loginOk : Option Bool) (rent : RentDict) (us rc : Except LChar Unit)
      (baseHtml : LChar)

/--
Embedding of the session and login-page classification phase of
`_async_update_data` (coordinator.py lines 1072-1155): fetch rent status,
re-login when it is explicitly `False` and credentials exist, short-circuit
with a degraded snapshot when still `False`; otherwise fetch the auxiliary
endpoints best-effort, fetch the use-history page (an exception there
propagates as `Except.error`, i.e. an `UpdateFailed` raise), and
short-circuit with a degraded snapshot when every fetched period page looks
like a login page (`period_html` holds the single "history" page).
-/
def updateEarlyPhase (env : CycleEnv) : Except LChar CycleOutcome :=
  let st := afterRelogin env
  if st.2 = some false then
    Except.ok (CycleOutcome.degraded (degradedSnapshot st.1 (Except.ok ()) (Except.ok ())))
  else
    let us := env.userStatusFetch
    let rc := env.reconsentFetch
    match env.historyFetch with
    | Except.error e => Except.error e
    | Except.ok h =>
      if looksLikeLogin h then
        Except.ok (CycleOutcome.degraded (degradedSnapshot st.1 us rc))
      else Except.ok (CycleOutcome.proceed st.2 st.1 us rc h)

/-- Cycle environment whose rent status reports `loginYn = "N"` and whose
config holds no credentials. -/
def exEnvLoginFalse : CycleEnv :=
  { rentFetch := Except.ok { loginYn := some ("N".toList) }
    username := []
    password := []
    loginCall := Except.error ("unused".toList)
    rentFetchAfterLogin := Except.error ("unused".toList)
    userStatusFetch := Except.ok ()
    reconsentFetch := Except.ok ()
    historyFetch := Except.ok ("<p>x</p>".toList) }

/-- Cycle environment whose session is valid but whose use-history page is a
login page. -/
def exEnvLoginPage : CycleEnv :=
  { exEnvLoginFalse with
    rentFetch := Except.ok { loginYn := some ("Y".toList) }
    historyFetch := Except.ok exLoginHtml }

/-! ## Theorems -/

/--
C7: `fetch_rent_status` tries its two known endpoint paths in order and
returns the parsed result of the first one that succeeds without raising; if
the primary path raises and the alternate succeeds, the alternate's result
is returned; only if every variant fails is the last error re-raised.
-/
theorem C7_endpoint_variant_fallback {E J : Type} (res : LChar → Except E J) :
    (∀ v, res rentStatusPathA = Except.ok v → fetchRentStatus res = Except.ok v) ∧
    (∀ e v, res rentStatusPathA = Except.error e → res rentStatusPathB = Except.ok v →
      fetchRentStatus res = Except.ok v) ∧
    (∀ e1 e2, res rentStatusPathA = Except.error e1 →
      res rentStatusPathB = Except.error e2 →
      fetchRentStatus res = Except.error e2) := by
  refine ⟨fun v h => ?_, fun e v h h2 => ?_, fun e1 e2 h h2 => ?_⟩
  · simp [fetchRentStatus, h]
  · simp [fetchRentStatus, h, h2]
  · simp [fetchRentStatus, h, h2]

/-- Oracle whose primary rent-status path fails and whose alternate returns 7. -/
def rentOracleW : LChar → Except Nat Nat := fun p =>
  if p = rentStatusPathA then Except.error 0 else Except.ok 7

theorem C7_endpoint_variant_fallback_witness :
    fetchRentStatus rentOracleW = Except.ok 7 :=
  (C7_endpoint_variant_fallback rentOracleW).2.1 0 7 rfl rfl

/--
C4: for every paged source in which pages 1 and 2 each return exactly
`page_size` rows and page 3 returns fewer, `fetch_all` returns exactly the
concatenation of the three pages' rows in order and requests no page after
page 3 (the returned request count is 3), regardless of any reported
`list_total_count` value (the page payloads are arbitrary in that field).
-/
theorem C4_paging_termination {α : Type} (pages : Nat → Except LChar (PageResult α))
    (ps mp : Nat) (p0 p1 p2 : PageResult α)
    (hps1 : 1 ≤ ps) (hps2 : ps ≤ 1000) (hmp : 3 ≤ mp)
    (h0 : pages 0 = Except.ok p0) (h1 : pages 1 = Except.ok p1)
    (h2 : pages 2 = Except.ok p2)
    (l0 : p0.row.length = ps) (l1 : p1.row.length = ps) (l2 : p2.row.length < ps) :
    fetchAll pages ps mp = Except.ok (p0.row ++ p1.row ++ p2.row, 3) := by
  obtain ⟨k, rfl⟩ : ∃ k, mp = Nat.succ (Nat.succ (Nat.succ k)) := ⟨mp - 3, by omega⟩
  have hmin : min ps 1000 = ps := by omega
  have hmax : max 1 (Nat.succ (Nat.succ (Nat.succ k))) = Nat.succ (Nat.succ (Nat.succ k)) := by
    omega
  unfold fetchAll
  rw [hmin, hmax]
  simp [fetchAllGo, h0, h1, h2, l0, l1, l2, List.append_assoc]

/-- Paged oracle: two full pages of size 2, then a short page. -/
def pagesOracleW : Nat → Except LChar (PageResult Nat) := fun i =>
  if i = 0 then Except.ok { row := [1, 2], listTotalCount := 5 }
  else if i = 1 then Except.ok { row := [3, 4], listTotalCount := 7 }
  else if i = 2 then Except.ok { row := [5], listTotalCount := 0 }
  else Except.error ("no more pages".toList)

theorem C4_paging_termination_witness :
    fetchAll pagesOracleW 2 10 = Except.ok ([1, 2, 3, 4, 5], 3) :=
  C4_paging_termination pagesOracleW 2 10
    { row := [1, 2], listTotalCount := 5 } { row := [3, 4], listTotalCount := 7 }
    { row := [5], listTotalCount := 0 }
    (by omega) (by omega) (by omega) rfl rfl rfl rfl rfl (by decide)

/-- Unfolding equation of the paging loop at zero remaining budget. -/
theorem fetchAllGo_zero {α : Type} (pages : Nat → Except LChar (PageResult α))
    (ps idx : Nat) : fetchAllGo pages ps 0 idx = Except.ok ([], 0) := rfl

/-- Unfolding equation of the paging loop with remaining budget. -/
theorem fetchAllGo_succ {α : Type} (pages : Nat → Except LChar (PageResult α))
    (ps f idx : Nat) :
    fetchAllGo pages ps (f + 1) idx =
      match pages idx with
      | Except.error e => Except.error e
      | Except.ok pr =>
        if pr.row.length < ps then Except.ok (pr.row, 1)
        else
          match fetchAllGo pages ps f (idx + 1) with
          | Except.error e => Except.error e
          | Except.ok (rest, n) => Except.ok (pr.row ++ rest, n + 1) := rfl

/-- Bound on the paging loop: at most `fuel` pages are requested and, when
every successful page holds at most `ps` rows, at most `ps * fuel` rows are
accumulated. -/
theorem fetchAllGo_bound {α : Type} (pages : Nat → Except LChar (PageResult α)) (ps : Nat)
    (hbound : ∀ i pr, pages i = Except.ok pr → pr.row.length ≤ ps) :
    ∀ fuel idx rows n, fetchAllGo pages ps fuel idx = Except.ok (rows, n) →
      n ≤ fuel ∧ rows.length ≤ ps * fuel := by
  intro fuel
  induction fuel with
  | zero =>
    intro idx rows n h
    rw [fetchAllGo_zero] at h
    obtain ⟨h1, h2⟩ := Prod.mk.inj (Except.ok.inj h)
    subst h1; subst h2
    simp
  | succ f ih =>
    intro idx rows n h
    rw [fetchAllGo_succ] at h
    have hmul : ps * (f + 1) = ps * f + ps := Nat.mul_succ ps f
    cases hp : pages idx with
    | error e => rw [hp] at h; simp at h
    | ok pr =>
      rw [hp] at h
      have hrow := hbound idx pr hp
      by_cases hshort : pr.row.length < ps
      · simp only [hshort, if_pos] at h
        obtain ⟨h1, h2⟩ := Prod.mk.inj (Except.ok.inj h)
        subst h1; subst h2
        constructor
        · omega
        · omega
      · simp only [hshort, if_neg] at h
        cases hr : fetchAllGo pages ps f (idx + 1) with
        | error e => rw [hr] at h; simp at h
        | ok pr2 =>
          rw [hr] at h
          obtain ⟨rest, m⟩ := pr2
          obtain ⟨hm, hlen⟩ := ih (idx + 1) rest m hr
          obtain ⟨h1, h2⟩ := Prod.mk.inj (Except.ok.inj h)
          subst h1; subst h2
          have hap : (pr.row ++ rest).length = pr.row.length + rest.length :=
            List.length_append pr.row rest
          constructor
          · omega
          · omega

/--
C10: `fetch_all` requests at most `max_pages` pages and therefore returns at
most `page_size * max_pages` rows even when the upstream keeps returning
full pages — the paging loop silently truncates beyond this cap.
-/
theorem C10_fetch_all_page_cap {α : Type} (pages : Nat → Except LChar (PageResult α))
    (ps mp : Nat) (rows : List α) (n : Nat)
    (hps : ps ≤ 1000) (hmp : 1 ≤ mp)
    (hbound : ∀ i pr, pages i = Except.ok pr → pr.row.length ≤ ps)
    (h : fetchAll pages ps mp = Except.ok (rows, n)) :
    n ≤ mp ∧ rows.length ≤ ps * mp := by
  unfold fetchAll at h
  rw [show min ps 1000 = ps by omega, show max 1 mp = mp by omega] at h
  exact fetchAllGo_bound pages ps hbound mp 0 rows n h

/-- Paged oracle that keeps returning full pages of 2 rows forever. -/
def pagesFullW : Nat → Except LChar (PageResult Nat) := fun _ =>
  Except.ok { row := [0, 0], listTotalCount := 3 }

theorem C10_fetch_all_page_cap_witness :
    3 ≤ 3 ∧ ([0, 0, 0, 0, 0, 0] : List Nat).length ≤ 2 * 3 :=
  C10_fetch_all_page_cap pagesFullW 2 3 [0, 0, 0, 0, 0, 0] 3 (by omega) (by omega)
    (fun i pr h => by
      have : pr = { row := [0, 0], listTotalCount := 3 } := (Except.ok.inj h).symm
      subst this; decide)
    rfl

/--
C1 counterexample: with a previous snapshot having non-empty history, kcal
and period bounds and a current payload whose history parsed empty but whose
kcal box did not, the merged kcal keeps the current (different) value, so the
merged kcal/period fields do not all equal the previous snapshot's values.
-/
theorem C1_merge_cex :
    mergeCexPayload.history = [] ∧ mergeCexPrev.history ≠ [] ∧
    mergeCexPrev.kcal ≠ [] ∧ truthyStr mergeCexPrev.period_start = true ∧
    truthyStr mergeCexPrev.period_end = true ∧
    (mergeLatestHistory mergeCexPayload mergeCexPrev).kcal ≠ mergeCexPrev.kcal := by
  decide

/--
C1 (amended): when the current payload's history parsed empty and the
previous snapshot's history is non-empty, the merged history is the
one-element list holding the previous latest trip and `last` equals that
trip; the merged kcal (resp. period_start, period_end) equals the previous
snapshot's value whenever the current payload's own value is empty.
-/
theorem C1_merge_no_regression (payload prev : HistPayload) (e : HistEntry)
    (es : List HistEntry) (hp : payload.history = []) (hprev : prev.history = e :: es) :
    (mergeLatestHistory payload prev).history = [e] ∧
    (mergeLatestHistory payload prev).last = e ∧
    (payload.kcal = [] → prev.kcal ≠ [] →
      (mergeLatestHistory payload prev).kcal = prev.kcal) ∧
    (truthyStr payload.period_start = false → truthyStr prev.period_start = true →
      (mergeLatestHistory payload prev).period_start = prev.period_start) ∧
    (truthyStr payload.period_end = false → truthyStr prev.period_end = true →
      (mergeLatestHistory payload prev).period_end = prev.period_end) := by
  unfold mergeLatestHistory
  rw [hp, hprev]
  refine ⟨?_, ?_, ?_, ?_, ?_⟩ <;> simp <;> split_ifs <;> simp_all

theorem C1_merge_no_regression_witness :
    (mergeLatestHistory mergeCexPayload mergeCexPrev).history =
        [[("bike".toList, "SPB-1".toList)]] ∧
    (mergeLatestHistory mergeCexPayload mergeCexPrev).last =
        [("bike".toList, "SPB-1".toList)] := by
  obtain ⟨h1, h2, -, -, -⟩ :=
    C1_merge_no_regression mergeCexPayload mergeCexPrev
      [("bike".toList, "SPB-1".toList)] [] (by decide) (by decide)
  exact ⟨h1, h2⟩

/--
C8 counterexample: with every my_page value present in the previous snapshot
and every current-cycle source empty (no realtime voucher end, a voucher API
response carrying no values, no left-page expiry), the published voucher
expiry is erased to `None` instead of retaining the previous value — so a
present value is overwritten by an absent current-cycle value.
-/
theorem C8_my_page_cex :
    falsyV myPageCexPrev.voucherEnd = false ∧
    (buildMyPage myPageCexPrev none (Except.ok {}) none).vals.voucherEnd = none := by
  decide

/--
C8 (amended): registration and last-login values are never overwritten by an
absent current-cycle value and a current-cycle value always wins; the
voucher expiry follows the source priority realtime list → voucher API →
left page within the current cycle, but is not retained from the previous
snapshot when every current source is empty.
-/
theorem C8_my_page_merge (prev : MyPageVals) (rv : Option LChar)
    (vf : Except LChar MyPageVals) (le : Option LChar) :
    (falsyV (apiReg vf) = true → falsyV prev.regDttm = false →
      (buildMyPage prev rv vf le).vals.regDttm = prev.regDttm) ∧
    (needVoucherApi prev rv = true → falsyV (apiReg vf) = false →
      (buildMyPage prev rv vf le).vals.regDttm = apiReg vf) ∧
    (falsyV (apiLastLogin vf) = true → falsyV prev.lastLoginDttm = false →
      (buildMyPage prev rv vf le).vals.lastLoginDttm = prev.lastLoginDttm) ∧
    (needVoucherApi prev rv = true → falsyV (apiLastLogin vf) = false →
      (buildMyPage prev rv vf le).vals.lastLoginDttm = apiLastLogin vf) ∧
    (falsyV rv = false → (buildMyPage prev rv vf le).vals.voucherEnd = rv) ∧
    (falsyV rv = true → falsyV (apiVoucherEnd vf) = false →
      (buildMyPage prev rv vf le).vals.voucherEnd = apiVoucherEnd vf) ∧
    (falsyV rv = true → falsyV (apiVoucherEnd vf) = true →
      (buildMyPage prev rv vf le).vals.voucherEnd = le) := by
  cases vf with
  | ok vals =>
    cases hrv : falsyV rv <;> cases hpr : falsyV prev.regDttm <;>
      cases hpl : falsyV prev.lastLoginDttm <;> cases hvr : falsyV vals.regDttm <;>
      cases hvl : falsyV vals.lastLoginDttm <;> cases hvv : falsyV vals.voucherEnd <;>
      simp_all [buildMyPage, needVoucherApi, apiReg, apiLastLogin, apiVoucherEnd]
  | error e =>
    cases hrv : falsyV rv <;> cases hpr : falsyV prev.regDttm <;>
      cases hpl : falsyV prev.lastLoginDttm <;>
      simp_all [buildMyPage, needVoucherApi, apiReg, apiLastLogin, apiVoucherEnd,
        falsyV, truthyStr]

theorem C8_my_page_merge_witness :
    (buildMyPage myPageCexPrev none (Except.ok {}) none).vals.regDttm =
        myPageCexPrev.regDttm ∧
    (buildMyPage myPageCexPrev none (Except.ok {}) none).vals.lastLoginDttm =
        myPageCexPrev.lastLoginDttm ∧
    (buildMyPage myPageCexPrev none (Except.ok {}) none).vals.voucherEnd = none := by
  obtain ⟨h1, -, h3, -, -, -, h7⟩ :=
    C8_my_page_merge myPageCexPrev none (Except.ok {}) none
  exact ⟨h1 (by decide) (by decide), h3 (by decide) (by decide),
    h7 (by decide) (by decide)⟩

/--
C9: whenever a poll cycle determines the session is unusable — the login
check is explicitly false with no usable credentials, or the fetched period
page classifies as a login page — `_async_update_data` returns normally
(an `Except.ok`, not a raise to the scheduler) with a snapshot whose
periods, favorites and favorite_status are empty, whose error field is
non-null and whose validation status is "login_page".
-/
theorem C9_degraded_snapshot (env : CycleEnv) :
    (loginOkFirst env = some false → hasCreds env = false →
      ∃ s, updateEarlyPhase env = Except.ok (CycleOutcome.degraded s) ∧
        s.periods = [] ∧ s.favorites = [] ∧ s.favoriteStatus = [] ∧
        s.errorMsg ≠ none ∧ s.validationStatus = "login_page".toList) ∧
    (∀ h, (afterRelogin env).2 ≠ some false → env.historyFetch = Except.ok h →
      looksLikeLogin h = true →
      ∃ s, updateEarlyPhase env = Except.ok (CycleOutcome.degraded s) ∧
        s.periods = [] ∧ s.favorites = [] ∧ s.favoriteStatus = [] ∧
        s.errorMsg ≠ none ∧ s.validationStatus = "login_page".toList) := by
  constructor
  · intro hlo hcreds
    have hst : (afterRelogin env).2 = some false := by
      unfold afterRelogin
      rw [hcreds, hlo]
      simp
    refine ⟨degradedSnapshot (afterRelogin env).1 (Except.ok ()) (Except.ok ()), ?_,
      rfl, rfl, rfl, by simp [degradedSnapshot], rfl⟩
    unfold updateEarlyPhase
    rw [if_pos hst]
  · intro h hne hh hlogin
    refine ⟨degradedSnapshot (afterRelogin env).1 env.userStatusFetch env.reconsentFetch,
      ?_, rfl, rfl, rfl, by simp [degradedSnapshot], rfl⟩
    unfold updateEarlyPhase
    rw [if_neg hne, hh]
    simp [hlogin]

theorem C9_degraded_snapshot_witness :
    (∃ s, updateEarlyPhase exEnvLoginFalse = Except.ok (CycleOutcome.degraded s) ∧
      s.periods = [] ∧ s.favorites = [] ∧ s.favoriteStatus = [] ∧
      s.errorMsg ≠ none ∧ s.validationStatus = "login_page".toList) ∧
    (∃ s, updateEarlyPhase exEnvLoginPage = Except.ok (CycleOutcome.degraded s) ∧
      s.periods = [] ∧ s.favorites = [] ∧ s.favoriteStatus = [] ∧
      s.errorMsg ≠ none ∧ s.validationStatus = "login_page".toList) :=
  ⟨(C9_degraded_snapshot exEnvLoginFalse).1 (by decide) (by decide),
    (C9_degraded_snapshot exEnvLoginPage).2 exLoginHtml (by decide) rfl (by decide)⟩

/--
C6: `_looks_like_login` returns true for HTML containing both a
password-typed input and `j_spring_security_check` (as in a login-form
action) when no authenticated-content or logout marker is present, and
returns false as soon as a data marker (e.g. a `moveRentalStation` station
link) or a logout marker is present — data markers take precedence.
-/
theorem C6_login_page_classifier (html : LChar) :
    (hasPasswordInput (pyLower html) = true →
      containsSub (pyLower html) ("j_spring_security_check".toList) = true →
      hasDataMarker (pyLower html) = false → hasLogoutMarker (pyLower html) = false →
      looksLikeLogin html = true) ∧
    (hasDataMarker (pyLower html) = true ∨ hasLogoutMarker (pyLower html) = true →
      looksLikeLogin html = false) := by
  constructor
  · intro h1 h2 h3 h4
    cases html with
    | nil => exact absurd h1 (by decide)
    | cons c cs =>
      unfold looksLikeLogin
      simp [h1, h3, h4]
      exact Or.inl (by simpa using h2)
  · intro h
    cases html with
    | nil =>
      rcases h with h | h
      · exact absurd h (by decide)
      · exact absurd h (by decide)
    | cons c cs =>
      unfold looksLikeLogin
      rcases h with h | h <;> simp [h]

theorem C6_login_page_classifier_witness :
    looksLikeLogin exLoginHtml = true ∧ looksLikeLogin exLoginHtmlWithMarker = false :=
  ⟨(C6_login_page_classifier exLoginHtml).1 (by decide) (by decide) (by decide) (by decide),
    (C6_login_page_classifier exLoginHtmlWithMarker).2 (Or.inl (by decide))⟩

/--
C5 counterexample: a status payload reporting only a sprout (teen) count and
no total at all yields a Station whose missing general count is back-filled
to the derived total, so `bikes_total = bikes_general + bikes_sprout` fails
(total 4, general 4, sprout 4) even though no total was independently
reported.
-/
theorem C5_station_cex :
    stationCexStatus.parkingBikeTotCnt = none ∧ stationCexStatus.bikesTotalKey = none ∧
    (stationFromStatus stationCexStatus none none none).map
        (fun s => decide (s.bikes_total = s.bikes_general + s.bikes_sprout)) =
      some false := by
  decide

/--
C5 (amended): every Station built by `_station_from_status` (main
coordinator variant) satisfies `bikes_total >= 0`; and whenever the payload
did not independently report a total bike count (both total keys parse
non-positive) and the derived general and sprout counts are positive,
`bikes_total = bikes_general + bikes_sprout` holds.  (When the general
count is absent it is back-filled to the derived total, which breaks the
sum identity — see the counterexample.)
-/
theorem C5_station_invariant (st : StatusPayload) (fbId fbNo fbName : Option LChar)
    (s : Station) (h : stationFromStatus st fbId fbNo fbName = some s) :
    0 ≤ s.bikes_total ∧
    (toIntD st.parkingBikeTotCnt 0 ≤ 0 → toIntD st.bikesTotalKey 0 ≤ 0 →
      0 < derivedGeneral st → 0 < derivedSprout st →
      s.bikes_total = s.bikes_general + s.bikes_sprout) := by
  simp only [stationFromStatus] at h
  split at h
  · exact absurd h (by simp)
  · rw [Option.some_inj] at h
    subst h
    constructor
    · dsimp only
      split_ifs <;> omega
    · intro ht hbt hg hs
      dsimp only
      split_ifs <;> omega

/-- Status payload with a reported general and sprout count but no total. -/
def stationWStatus : StatusPayload :=
  { stationId := some ("ST-2".toList),
    parkingBikeTotCntGeneral := some ("3".toList),
    parkingBikeTotCntTeen := some ("4".toList) }

theorem C5_station_invariant_witness :
    0 ≤ (7 : Int) ∧ (7 : Int) = 3 + 4 := by
  obtain ⟨h1, h2⟩ :=
    C5_station_invariant stationWStatus none none none
      { station_id := "ST-2".toList, station_no := [], station_title := "ST-2".toList,
        lat := 0, lon := 0, bikes_total := 7, bikes_general := 3, bikes_sprout := 4,
        bikes_repair := 0 }
      (by decide)
  exact ⟨h1, h2 (by decide) (by decide) (by decide) (by decide)⟩

/-- Effective radius equals the configured radius for positive configs. -/
theorem effRadius_of_pos (r : Int) (h : 1 ≤ r) : effRadius r = r := by
  unfold effRadius
  rw [if_neg (by omega)]
  omega

/-- Effective minimum equals the configured minimum for non-negative configs. -/
theorem effMinBikes_of_nonneg (m : Int) (h : 0 ≤ m) : effMinBikes m = m := by
  unfold effMinBikes
  omega

/--
C2: for every station map and distance assignment, the nearby list is a
truncation (when a positive maximum is configured; 0 = unlimited) of a
sorted permutation of exactly the qualifying candidates — stations with
known coordinates, distance within the configured radius and at least the
configured minimum bike count (`qualifiesB`), sorted by bike count
descending with distance ascending as tiebreak (`nearbyKeyRel`); and for
stations A(bikes=5,dist=100), B(bikes=5,dist=50), C(bikes=8,dist=200), all
within radius, the resulting order is C, B, A.  The haversine distance
itself (float trigonometry) enters only through the `dist` parameter.
-/
theorem C2_nearby_ranking :
    (∀ (dist : Station → ℚ) (radiusCfg minBikesCfg maxResCfg : Int)
        (stations : List Station), 1 ≤ radiusCfg → 0 ≤ minBikesCfg →
      ∃ full : List NearbyCandidate,
        full.Perm ((stations.filter (qualifiesB dist radiusCfg minBikesCfg)).map
          (mkCandidate dist)) ∧
        List.Sorted nearbyKeyRel full ∧
        (computeNearby dist radiusCfg minBikesCfg maxResCfg stations).nearby =
          (if 0 < maxResCfg then full.take maxResCfg.toNat else full) ∧
        List.Sorted nearbyKeyRel
          (computeNearby dist radiusCfg minBikesCfg maxResCfg stations).nearby) ∧
    ((computeNearby exDist 10000 0 0 exStations).nearby.map (fun c => c.station_id) =
      ["C".toList, "B".toList, "A".toList]) := by
  constructor
  · intro dist radiusCfg minBikesCfg maxResCfg stations hr hm
    refine ⟨List.insertionSort nearbyKeyRel
      ((stations.filter (qualifiesB dist (effRadius radiusCfg)
        (effMinBikes minBikesCfg))).map (mkCandidate dist)), ?_, ?_, ?_, ?_⟩
    · rw [effRadius_of_pos radiusCfg hr, effMinBikes_of_nonneg minBikesCfg hm]
      exact List.perm_insertionSort nearbyKeyRel _
    · exact List.sorted_insertionSort nearbyKeyRel _
    · rfl
    · unfold computeNearby
      dsimp only
      split_ifs
      · exact List.Pairwise.sublist (List.take_sublist _ _)
          (List.sorted_insertionSort nearbyKeyRel _)
      · exact List.sorted_insertionSort nearbyKeyRel _
  · decide

theorem C2_nearby_ranking_witness :
    ∃ full : List NearbyCandidate,
      full.Perm ((exStations.filter (qualifiesB exDist 10000 0)).map
        (mkCandidate exDist)) ∧
      List.Sorted nearbyKeyRel full ∧
      (computeNearby exDist 10000 0 0 exStations).nearby =
        (if (0 : Int) < 0 then full.take (0 : Int).toNat else full) ∧
      List.Sorted nearbyKeyRel (computeNearby exDist 10000 0 0 exStations).nearby :=
  C2_nearby_ranking.1 exDist 10000 0 0 exStations (by omega) (by omega)

/-- A character absent from a list gives a false `contains`. -/
theorem contains_eq_false {a : Char} {l : LChar} (h : a ∉ l) : l.contains a = false := by
  by_contra hc
  simp only [Bool.not_eq_false] at hc
  exact h (by simpa using hc)

/-- Replacing a character that does not occur leaves the string unchanged. -/
theorem pyReplaceChar_id (a b : Char) (l : LChar) (h : a ∉ l) : pyReplaceChar a b l = l := by
  induction l with
  | nil => rfl
  | cons c t ih =>
    simp only [List.mem_cons, not_or] at h
    have h1 : ¬ c = a := fun hh => h.1 hh.symm
    show List.map _ (c :: t) = c :: t
    rw [List.map_cons, if_neg h1]
    have ht := ih h.2
    unfold pyReplaceChar at ht
    rw [ht]

/-- Stripping only removes characters. -/
theorem mem_of_pyStrip {c : Char} {s : LChar} (h : c ∈ pyStrip s) : c ∈ s := by
  unfold pyStrip at h
  rw [List.mem_reverse] at h
  have h2 := (List.dropWhile_sublist _).subset h
  rw [List.mem_reverse] at h2
  exact (List.dropWhile_sublist _).subset h2

/-- Every part produced by the whitespace split is whitespace-free. -/
theorem pySplitWSAux_no_space :
    ∀ (s acc : LChar), (∀ c ∈ acc, isPySpace c = false) →
      ∀ p ∈ pySplitWSAux acc s, ∀ c ∈ p, isPySpace c = false := by
  intro s
  induction s with
  | nil =>
    intro acc hacc p hp c hc
    unfold pySplitWSAux at hp
    split at hp
    · exact absurd hp (List.not_mem_nil p)
    · rw [List.mem_singleton] at hp
      subst hp
      exact hacc c (List.mem_reverse.mp hc)
  | cons d t ih =>
    intro acc hacc p hp c hc
    unfold pySplitWSAux at hp
    by_cases hd : isPySpace d = true
    · rw [if_pos hd] at hp
      by_cases he : acc.isEmpty = true
      · rw [if_pos he] at hp
        exact ih [] (by simp) p hp c hc
      · rw [if_neg he] at hp
        rcases List.mem_cons.mp hp with rfl | hp2
        · exact hacc c (List.mem_reverse.mp hc)
        · exact ih [] (by simp) p hp2 c hc
    · rw [if_neg hd] at hp
      refine ih (d :: acc) ?_ p hp c hc
      intro e he
      rcases List.mem_cons.mp he with rfl | he2
      · simpa using hd
      · exact hacc e he2

/-- A character of a space-joined string is a space or lies in some part. -/
theorem mem_pyJoin_space {c : Char} : ∀ {parts : List LChar},
    c ∈ pyJoin [' '] parts → c = ' ' ∨ ∃ p ∈ parts, c ∈ p := by
  intro parts
  induction parts with
  | nil => intro h; exact absurd h (List.not_mem_nil c)
  | cons p ps ih =>
    intro h
    cases ps with
    | nil => exact Or.inr ⟨p, by simp, by simpa [pyJoin] using h⟩
    | cons q qs =>
      rw [show pyJoin [' '] (p :: q :: qs) = p ++ [' '] ++ pyJoin [' '] (q :: qs) from rfl,
        List.append_assoc] at h
      rcases List.mem_append.mp h with h1 | h2
      · exact Or.inr ⟨p, by simp, h1⟩
      · rcases List.mem_append.mp h2 with hsep | h3
        · exact Or.inl (by simpa using hsep)
        · rcases ih h3 with h4 | ⟨r, hr, hcr⟩
          · exact Or.inl h4
          · exact Or.inr ⟨r, by simp [hr], hcr⟩

/-- A whitespace-collapsed string contains no whitespace other than spaces. -/
theorem collapsed_no_space (w : LChar) {c : Char} (hsp : isPySpace c = true)
    (hne : c ≠ ' ') : c ∉ pyJoin [' '] (pySplitWS w) := by
  intro hmem
  rcases mem_pyJoin_space hmem with h | ⟨p, hp, hcp⟩
  · exact hne h
  · have hns := pySplitWSAux_no_space w [] (by simp) p hp c hcp
    rw [hns] at hsp
    exact absurd hsp (by decide)

/-- The conditional cookie-prefix removal only drops characters. -/
theorem mem_of_ifStripDrop {c : Char} {v : LChar} {P : Prop} [Decidable P]
    (h : c ∈ (if P then pyStrip (v.drop 7) else v)) : c ∈ v := by
  split at h
  · exact (List.drop_sublist 7 v).subset (mem_of_pyStrip h)
  · exact h

/-- The cookie normalizer never emits a non-space whitespace character. -/
theorem normalizeCookie_no_space_char (x : LChar) {c : Char}
    (hsp : isPySpace c = true) (hne : c ≠ ' ') : c ∉ normalizeCookie x := by
  intro hmem
  simp only [normalizeCookie] at hmem
  have h1 := mem_of_ifStripDrop (mem_of_ifStripDrop hmem)
  split at h1
  · next he =>
    rw [List.isEmpty_iff.mp he] at h1
    exact absurd h1 (List.not_mem_nil c)
  · exact collapsed_no_space _ hsp hne h1

/-- The cookie normalizer never emits CR or LF. -/
theorem normalizeCookie_no_crlf (x : LChar) :
    '\n' ∉ normalizeCookie x ∧ '\r' ∉ normalizeCookie x :=
  ⟨normalizeCookie_no_space_char x (by decide) (by decide),
    normalizeCookie_no_space_char x (by decide) (by decide)⟩

/-- Already-normal strings (edge-stripped of whitespace and quotes, CR/LF
free, whitespace-collapsed, without a residual cookie prefix) are fixed
points of the cookie normalizer. -/
theorem normalizeCookie_fixed (v : LChar)
    (h1 : pyStrip v = v) (h2 : pyStripChar dq v = v) (h3 : pyStripChar sq v = v)
    (h4 : '\n' ∉ v) (h5 : '\r' ∉ v)
    (h6 : pyJoin [' '] (pySplitWS v) = v)
    (h7 : pyStartsWith (pyLower v) ("cookie ".toList) = false)
    (h8 : pyStartsWith (pyLower v) ("cookie:".toList) = false) :
    normalizeCookie v = v := by
  simp only [normalizeCookie]
  rw [h1, h2, h3]
  have h7a : pyStartsWith (pyLower v) ['c', 'o', 'o', 'k', 'i', 'e', ' '] = false := h7
  have h8a : pyStartsWith (pyLower v) ['c', 'o', 'o', 'k', 'i', 'e', ':'] = false := h8
  by_cases he : v.isEmpty = true
  · simp [he, h7a, h8a]
  · simp [he, h4, h5, pyReplaceChar_id '\r' ' ' v h5, pyReplaceChar_id '\n' ' ' v h4,
      h6, h7a, h8a]

/--
C3 counterexample: `_normalize_cookie` is not idempotent — on the input
"cookie cookie x" one pass strips a single "cookie " prefix leaving
"cookie x", and a second pass strips again, yielding "x".
-/
theorem C3_cookie_cex :
    normalizeCookie (normalizeCookie cookieCexInput) ≠ normalizeCookie cookieCexInput := by
  decide

/--
C3 (amended): the result of `_normalize_cookie` never contains CR or LF, and
normalization is idempotent on every input whose normalized form is itself
normal — edge whitespace/quote free, whitespace-collapsed, and free of a
residual leading cookie prefix.  (A second pass strips further exactly when
the first pass exposes a surrounding quote or another cookie prefix, as in
the counterexample.)
-/
theorem C3_cookie_normalize (x : LChar) :
    ('\n' ∉ normalizeCookie x ∧ '\r' ∉ normalizeCookie x) ∧
    (pyStrip (normalizeCookie x) = normalizeCookie x →
      pyStripChar dq (normalizeCookie x) = normalizeCookie x →
      pyStripChar sq (normalizeCookie x) = normalizeCookie x →
      pyJoin [' '] (pySplitWS (normalizeCookie x)) = normalizeCookie x →
      pyStartsWith (pyLower (normalizeCookie x)) ("cookie ".toList) = false →
      pyStartsWith (pyLower (normalizeCookie x)) ("cookie:".toList) = false →
      normalizeCookie (normalizeCookie x) = normalizeCookie x) :=
  ⟨normalizeCookie_no_crlf x,
    fun h1 h2 h3 h6 h7 h8 =>
      normalizeCookie_fixed (normalizeCookie x) h1 h2 h3
        (normalizeCookie_no_crlf x).1 (normalizeCookie_no_crlf x).2 h6 h7 h8⟩

/-- A pasted header line whose normalization is idempotent. -/
def cookieWInput : LChar := " Cookie: A=1; B=2 ".toList

theorem C3_cookie_normalize_witness :
    ('\n' ∉ normalizeCookie cookieWInput ∧ '\r' ∉ normalizeCookie cookieWInput) ∧
    normalizeCookie (normalizeCookie cookieWInput) = normalizeCookie cookieWInput :=
  ⟨(C3_cookie_normalize cookieWInput).1,
    (C3_cookie_normalize cookieWInput).2 (by decide) (by decide) (by decide)
      (by decide) (by decide) (by decide)⟩

end SeoulBike
